import Mathlib

/-!
Verification of the SynoReverseProxy backend against its specification.

The definitions below are a shallow embedding of the Python source:
- backend/app/core/web_auth.py   (web sessions, password change, rate limiting)
- backend/app/utils/encryption.py (NAS session load)
- backend/app/core/synology.py    (build_rule)
- backend/app/api/routes/import_export.py (rule normalization, duplicate
  detection, batch import)

Timestamps are modelled as integers; the in-memory session map is an
association list; the encrypted files are modelled by an explicit
persisted copy of the data plus a FileContent sum describing what a read
of the file can yield (missing file, empty file, undecryptable or
unparsable bytes, or well-formed data).  The bcrypt hash and verify
functions live in an external library, so they are passed as opaque
function parameters.
-/

namespace SynoRP

/-! Association-list maps, standing in for Python dicts keyed by strings. -/

def mfind {α : Type} : List (String × α) → String → Option α
  | [], _ => none
  | (k, v) :: rest, key => if k = key then some v else mfind rest key

def merase {α : Type} : List (String × α) → String → List (String × α)
  | [], _ => []
  | (k, v) :: rest, key =>
      if k = key then merase rest key else (k, v) :: merase rest key

def minsert {α : Type} (m : List (String × α)) (key : String) (v : α) :
    List (String × α) :=
  (key, v) :: merase m key

/-- Python truthiness of an optional string: None and the empty string are
falsy. -/
def strTruthy : Option String → Bool
  | none => false
  | some s => decide (s ≠ "")

/-- Python truthiness of an optional number: None and 0 are falsy. -/
def numTruthy : Option Int → Bool
  | none => false
  | some v => decide (v ≠ 0)

/-! Data model of web_auth.py. -/

/-- One entry of the web-session map (web_auth.py, create_session). -/
structure WebSession where
  username : String
  created_at : Int
  expires_at : Int
  remember_me : Bool
deriving DecidableEq

abbrev SessionMap := List (String × WebSession)

/-- The dict written by save_web_auth.  The username and password_hash
fields are optional because load_web_auth returns whatever JSON the file
holds and the callers probe them with .get. -/
structure AuthData where
  username : Option String
  password_hash : Option String
  created_at : Int
  updated_at : Int
deriving DecidableEq

/-- The module-level state of web_auth.py that the claims touch: the web
auth record (.web_auth.json), the in-memory _sessions dict, and the
decrypted contents of web_sessions.json.enc (what save_web_sessions last
wrote). -/
structure WebAuthState where
  auth : Option AuthData
  sessions : SessionMap
  persisted : SessionMap
deriving DecidableEq

/-- save_web_auth builds a fresh record with both timestamps set to the
current time. -/
def save_web_auth (now : Int) (username password_hash : String) : AuthData :=
  { username := some username
  , password_hash := some password_hash
  , created_at := now
  , updated_at := now }

/-- update_password from web_auth.py.  verifyP and hashP stand for
bcrypt.checkpw / hashpw (external library).  Returns the boolean result
together with the updated module state; save_web_sessions is modelled by
updating the persisted copy. -/
def update_password (verifyP : String → String → Bool) (hashP : String → String)
    (now : Int) (st : WebAuthState) (current_password new_password : String) :
    Bool × WebAuthState :=
  match st.auth with
  | none => (false, st)
  | some auth_data =>
    match auth_data.username, auth_data.password_hash with
    | some stored_username, some stored_hash =>
      if stored_username = "" ∨ stored_hash = "" then (false, st)
      else if !(verifyP current_password stored_hash) then (false, st)
      else if new_password.length < 8 then (false, st)
      else
        let new_hash := hashP new_password
        (true, { auth := some (save_web_auth now stored_username new_hash)
               , sessions := []
               , persisted := [] })
    | _, _ => (false, st)

/-- create_session from web_auth.py.  The random token from
secrets.token_urlsafe(32) is passed in as session_id.  The expiry offsets
are the literal constants from the source: 30 days for remember-me and
3600 seconds otherwise. -/
def create_session (now : Int) (st : WebAuthState) (session_id : String)
    (username : String) (remember_me : Bool) : String × WebAuthState :=
  let expires_at : Int :=
    if remember_me then now + 30 * 24 * 60 * 60 else now + 3600
  let s : WebSession :=
    { username := username
    , created_at := now
    , expires_at := expires_at
    , remember_me := remember_me }
  let sessions := minsert st.sessions session_id s
  (session_id, { st with sessions := sessions, persisted := sessions })

/-- validate_session from web_auth.py.  An expired session is deleted and
the deletion is persisted. -/
def validate_session (now : Int) (st : WebAuthState) (session_id : String) :
    Bool × WebAuthState :=
  if session_id = "" then (false, st)
  else
    match mfind st.sessions session_id with
    | none => (false, st)
    | some s =>
      if now > s.expires_at then
        let sessions := merase st.sessions session_id
        (false, { st with sessions := sessions, persisted := sessions })
      else (true, st)

/-! Reading the persisted stores (web_auth.py load_web_sessions and
encryption.py load_session). -/

/-- What reading an encrypted state file can yield: no file, a file with
empty contents, bytes that fail to decrypt or parse, or well-formed
data. -/
inductive FileContent (α : Type) where
  | missing : FileContent α
  | empty : FileContent α
  | corrupt : FileContent α
  | ok : α → FileContent α
deriving DecidableEq

/-- load_web_sessions from web_auth.py: a missing file, empty bytes, or
any decryption or parse failure yields an empty map; otherwise expired
entries are filtered out. -/
def load_web_sessions (now : Int) (fc : FileContent SessionMap) : SessionMap :=
  match fc with
  | .missing => []
  | .empty => []
  | .corrupt => []
  | .ok sessions_data =>
      sessions_data.filter (fun p => decide (p.2.expires_at > now))

/-- The dict stored by save_session in encryption.py. -/
structure StoredNasSession where
  sid : Option String
  did : Option String
  synotoken : Option String
  expiry_time : Option Int
deriving DecidableEq

/-- load_session from encryption.py.  A missing file returns None; empty
bytes fail to decrypt, so like any decryption or parse failure they land
in the except branch and return None.  A stored record is returned whole
when the sid is truthy and the expiry is falsy (None or 0) or not yet
passed; otherwise the device id alone is preserved when truthy. -/
def load_session (now : Int) (fc : FileContent StoredNasSession) :
    Option StoredNasSession :=
  match fc with
  | .missing => none
  | .empty => none
  | .corrupt => none
  | .ok data =>
    let is_valid :=
      strTruthy data.sid &&
        (!numTruthy data.expiry_time || decide (now ≤ data.expiry_time.getD 0))
    if is_valid then
      some data
    else if strTruthy data.did then
      some { sid := none, did := data.did, synotoken := none, expiry_time := none }
    else
      none

/-! Rate limiting (web_auth.py) and the settings it reads (config.py). -/

/-- The fields of config.py Settings that the verified operations read.
app_session_expiry_secs and app_remember_me_expiry_secs are declared in
config.py (APP_SESSION_EXPIRY_SECS, APP_REMEMBER_ME_EXPIRY_SECS). -/
structure Settings where
  app_session_expiry_secs : Int
  app_remember_me_expiry_secs : Int
  app_rate_limit_enabled : Bool
  app_rate_limit_max_attempts : Nat
  app_rate_limit_window : Int
deriving DecidableEq

abbrev FailMap := List (String × List Int)

/-- _failed_attempts is a defaultdict(list): a missing identifier reads
as the empty list. -/
def ffind (fa : FailMap) (identifier : String) : List Int :=
  (mfind fa identifier).getD []

/-- check_rate_limit from web_auth.py: when enabled, prune attempts at or
before the window start, store the pruned list back, and reject when the
remaining count reaches the configured maximum.  Returns the boolean
result and the updated _failed_attempts map. -/
def check_rate_limit (settings : Settings) (now : Int) (fa : FailMap)
    (identifier : String) : Bool × FailMap :=
  if !settings.app_rate_limit_enabled then (true, fa)
  else
    let window_start := now - settings.app_rate_limit_window
    let pruned := (ffind fa identifier).filter (fun t => decide (t > window_start))
    let fa2 := minsert fa identifier pruned
    if pruned.length ≥ settings.app_rate_limit_max_attempts then (false, fa2)
    else (true, fa2)

/-- record_failed_attempt from web_auth.py. -/
def record_failed_attempt (now : Int) (fa : FailMap) (identifier : String) :
    FailMap :=
  minsert fa identifier (ffind fa identifier ++ [now])

/-- clear_failed_attempts from web_auth.py: deleting the key when present
is erasure from the map. -/
def clear_failed_attempts (fa : FailMap) (identifier : String) : FailMap :=
  merase fa identifier

/-! Reverse-proxy rule dictionaries (synology.py build_rule and the
import/export route helpers).  Rule fields that the route reads with
two-level .get probing are modelled with nested Options: the outer level
records whether the key is present in the dict, the inner level whether
the value is null.  Keys whose absent and null forms are treated
identically by every reader (fqdn, port, protocol, acl) use a single
Option. -/

structure Header where
  name : String
  value : String
deriving DecidableEq

structure Https where
  hsts : Option Bool
deriving DecidableEq

structure Backend where
  fqdn : Option String
  port : Option Int
  protocol : Option Int
deriving DecidableEq

structure Frontend where
  fqdn : Option String
  port : Option Int
  protocol : Option Int
  https : Option Https
  acl : Option String
deriving DecidableEq

structure Rule where
  description : Option String
  backend : Option Backend
  frontend : Option Frontend
  proxy_connect_timeout : Option (Option Int)
  proxy_read_timeout : Option (Option Int)
  proxy_send_timeout : Option (Option Int)
  proxy_http_version : Option (Option Int)
  proxy_intercept_errors : Option (Option Bool)
  customize_headers : Option (List Header)
deriving DecidableEq

/-- Sorting key comparison used by sorted(key=(h.name, h.value)):
lexicographic on the pair. -/
def hdrLe (a b : Header) : Bool :=
  decide (a.name < b.name) || (decide (a.name = b.name) && decide (a.value ≤ b.value))

def insertHdr (h : Header) : List Header → List Header
  | [] => [h]
  | x :: xs => if hdrLe h x then h :: x :: xs else x :: insertHdr h xs

/-- Stable ascending sort by (name, value), matching Python sorted. -/
def sortHeaders : List Header → List Header
  | [] => []
  | h :: t => insertHdr h (sortHeaders t)

/-- The https sub-dict normalization: when the https dict is present its
hsts entry is coerced with bool(https.get("hsts", False)); when absent it
stays absent (the route mutates a detached default dict in that case). -/
def normHttps : Option Https → Option Https
  | none => none
  | some h => some { hsts := some (h.hsts.getD false) }

/-- The frontend normalization step: an absent frontend becomes an empty
dict; a present one gets its https entry normalized. -/
def normFrontend : Option Frontend → Option Frontend
  | none => some { fqdn := none, port := none, protocol := none, https := none, acl := none }
  | some f => some { f with https := normHttps f.https }

/-- Numeric-field normalization: a present null becomes 60, a present
value is kept (already an integer in this model), an absent key stays
absent. -/
def normNum (x : Option (Option Int)) : Option (Option Int) :=
  match x with
  | none => none
  | some none => some (some 60)
  | some (some v) => some (some v)

/-- Boolean-field normalization with bool(get(field, False)). -/
def normBool (x : Option (Option Bool)) : Option (Option Bool) :=
  match x with
  | none => none
  | some b => some (some (b.getD false))

/-- _normalize_rule_for_comparison from import_export.py. -/
def _normalize_rule_for_comparison (rule : Rule) : Rule :=
  { rule with
    customize_headers := some (sortHeaders (rule.customize_headers.getD []))
  , frontend := normFrontend rule.frontend
  , proxy_connect_timeout := normNum rule.proxy_connect_timeout
  , proxy_read_timeout := normNum rule.proxy_read_timeout
  , proxy_send_timeout := normNum rule.proxy_send_timeout
  , proxy_http_version := normNum rule.proxy_http_version
  , proxy_intercept_errors := normBool rule.proxy_intercept_errors }

/-- The value the comparison reads for hsts:
frontend.get("https", \x7b\x7d).get("hsts", False). -/
def hstsVal (r : Rule) : Bool :=
  ((r.frontend.bind Frontend.https).bind Https.hsts).getD false

/-- Flattens the two-level .get probing: an absent key and a present null
both read as None. -/
def oflat {α : Type} : Option (Option α) → Option α
  | none => none
  | some x => x

/-- _rules_match_exactly from import_export.py: normalize both rules and
compare backend, frontend, hsts, acl, headers and proxy settings. -/
def _rules_match_exactly (rule1 rule2 : Rule) : Bool :=
  let norm1 := _normalize_rule_for_comparison rule1
  let norm2 := _normalize_rule_for_comparison rule2
  if norm1.backend.bind Backend.fqdn ≠ norm2.backend.bind Backend.fqdn ∨
     norm1.backend.bind Backend.port ≠ norm2.backend.bind Backend.port ∨
     norm1.backend.bind Backend.protocol ≠ norm2.backend.bind Backend.protocol then
    false
  else if norm1.frontend.bind Frontend.fqdn ≠ norm2.frontend.bind Frontend.fqdn ∨
          norm1.frontend.bind Frontend.port ≠ norm2.frontend.bind Frontend.port ∨
          norm1.frontend.bind Frontend.protocol ≠ norm2.frontend.bind Frontend.protocol then
    false
  else if hstsVal norm1 ≠ hstsVal norm2 then
    false
  else if norm1.frontend.bind Frontend.acl ≠ norm2.frontend.bind Frontend.acl then
    false
  else if norm1.customize_headers.getD [] ≠ norm2.customize_headers.getD [] then
    false
  else if oflat norm1.proxy_connect_timeout ≠ oflat norm2.proxy_connect_timeout ∨
          oflat norm1.proxy_read_timeout ≠ oflat norm2.proxy_read_timeout ∨
          oflat norm1.proxy_send_timeout ≠ oflat norm2.proxy_send_timeout ∨
          oflat norm1.proxy_http_version ≠ oflat norm2.proxy_http_version ∨
          oflat norm1.proxy_intercept_errors ≠ oflat norm2.proxy_intercept_errors then
    false
  else
    true

/-- The frontend-collision test of _check_duplicate_rule: same frontend
fqdn and port, read with .get probing (None == None counts as equal, as
in Python). -/
def sameFrontend (new_rule existing : Rule) : Bool :=
  decide (existing.frontend.bind Frontend.fqdn = new_rule.frontend.bind Frontend.fqdn) &&
  decide (existing.frontend.bind Frontend.port = new_rule.frontend.bind Frontend.port)

/-- The classification record returned by _check_duplicate_rule.  The
existing_rule_id and frontend bookkeeping strings of the source are not
modelled; the claims only read the flags and the reason. -/
structure DupResult where
  is_conflict : Bool
  is_exact_duplicate : Bool
  reason : Option String
deriving DecidableEq

def checkDupGo (new_rule : Rule) : List Rule → DupResult
  | [] => { is_conflict := false, is_exact_duplicate := false, reason := none }
  | existing :: rest =>
    if sameFrontend new_rule existing then
      if _rules_match_exactly new_rule existing then
        { is_conflict := true, is_exact_duplicate := true, reason := some "exact_duplicate" }
      else
        { is_conflict := true, is_exact_duplicate := false, reason := some "conflict" }
    else checkDupGo new_rule rest

/-- _check_duplicate_rule from import_export.py: scan the known rules for
the first one sharing the frontend (fqdn, port) and classify it. -/
def _check_duplicate_rule (new_rule : Rule) (existing_rules : List Rule) : DupResult :=
  checkDupGo new_rule existing_rules

/-- The keyword arguments the import route passes to build_rule, after
its .get extraction.  Fields that can be null in the incoming JSON and
are passed through unchanged are Options. -/
structure BuildArgs where
  description : String
  backend_fqdn : String
  backend_port : Int
  frontend_fqdn : String
  frontend_port : Int
  backend_protocol : Int
  frontend_protocol : Int
  frontend_hsts : Option Bool
  customize_headers : Option (List Header)
  proxy_connect_timeout : Option Int
  proxy_read_timeout : Option Int
  proxy_send_timeout : Option Int
  proxy_http_version : Option Int
  proxy_intercept_errors : Option Bool
  acl : Option String
deriving DecidableEq

/-- build_rule from synology.py: null headers become the empty list, the
acl key is always present (possibly null), every other field is emitted
under its key with the value passed in. -/
def build_rule (a : BuildArgs) : Rule :=
  { description := some a.description
  , backend := some
      { fqdn := some a.backend_fqdn
      , port := some a.backend_port
      , protocol := some a.backend_protocol }
  , frontend := some
      { fqdn := some a.frontend_fqdn
      , port := some a.frontend_port
      , protocol := some a.frontend_protocol
      , https := some { hsts := a.frontend_hsts }
      , acl := a.acl }
  , proxy_connect_timeout := some a.proxy_connect_timeout
  , proxy_read_timeout := some a.proxy_read_timeout
  , proxy_send_timeout := some a.proxy_send_timeout
  , proxy_http_version := some a.proxy_http_version
  , proxy_intercept_errors := some a.proxy_intercept_errors
  , customize_headers := some (a.customize_headers.getD []) }

/-- The loop state of import_rules: the known-rule-set snapshot, the
result counters, and the trace of upstream create calls issued. -/
structure ImportAcc where
  existing : List Rule
  created : Nat
  skipped : Nat
  failed : Nat
  createCalls : List Rule
deriving DecidableEq

/-- One iteration of the import_rules loop.  createOk decides whether the
upstream create succeeds for a given rule body; on success the snapshot
is refreshed from the upstream, which now also holds the new rule. -/
def import_step (createOk : Rule → Bool) (acc : ImportAcc) (rule : BuildArgs) :
    ImportAcc :=
  let rule_obj := build_rule rule
  let dup := _check_duplicate_rule rule_obj acc.existing
  if dup.is_conflict then
    { acc with skipped := acc.skipped + 1 }
  else if createOk rule_obj then
    { acc with created := acc.created + 1
             , existing := acc.existing ++ [rule_obj]
             , createCalls := acc.createCalls ++ [rule_obj] }
  else
    { acc with failed := acc.failed + 1
             , createCalls := acc.createCalls ++ [rule_obj] }

/-- import_rules from import_export.py, over the already-extracted
candidate arguments and the initially fetched rule list. -/
def import_rules (createOk : Rule → Bool) (existing : List Rule)
    (rules : List BuildArgs) : ImportAcc :=
  rules.foldl (import_step createOk)
    { existing := existing, created := 0, skipped := 0, failed := 0, createCalls := [] }

/-- Specification-level count of the candidates that collide with the
initially known rules or with rules created earlier in the same batch
(every non-colliding create assumed to succeed). -/
def countCollisions : List Rule → List BuildArgs → Nat
  | _, [] => 0
  | known, c :: rest =>
    if (known.find? (sameFrontend (build_rule c))).isSome then
      1 + countCollisions known rest
    else
      countCollisions (known ++ [build_rule c]) rest

/-! Helper lemmas. -/

theorem mfind_minsert_self {α : Type} (m : List (String × α)) (k : String) (v : α) :
    mfind (minsert m k v) k = some v := by
  simp [minsert, mfind]

theorem mfind_merase_self {α : Type} (m : List (String × α)) (k : String) :
    mfind (merase m k) k = none := by
  induction m with
  | nil => simp [merase, mfind]
  | cons p rest ih =>
    by_cases h : p.1 = k
    · simpa [merase, h] using ih
    · simp [merase, h, mfind, ih]

/-- _check_duplicate_rule classifies against the first known rule sharing
the frontend key, found in list order. -/
theorem checkDup_spec (r : Rule) (ex : List Rule) :
    _check_duplicate_rule r ex =
      match ex.find? (sameFrontend r) with
      | none => { is_conflict := false, is_exact_duplicate := false, reason := none }
      | some e =>
        if _rules_match_exactly r e then
          { is_conflict := true, is_exact_duplicate := true, reason := some "exact_duplicate" }
        else
          { is_conflict := true, is_exact_duplicate := false, reason := some "conflict" } := by
  induction ex with
  | nil => simp [_check_duplicate_rule, checkDupGo]
  | cons e rest ih =>
    by_cases h : sameFrontend r e
    · simp [_check_duplicate_rule, checkDupGo, h, List.find?]
    · simpa [_check_duplicate_rule, checkDupGo, h, List.find?] using ih

theorem is_conflict_iff_find (r : Rule) (ex : List Rule) :
    (_check_duplicate_rule r ex).is_conflict = (ex.find? (sameFrontend r)).isSome := by
  rw [checkDup_spec]
  cases ex.find? (sameFrontend r) with
  | none => simp
  | some e => by_cases h : _rules_match_exactly r e <;> simp [h]

theorem countCollisions_le (known : List Rule) (cs : List BuildArgs) :
    countCollisions known cs ≤ cs.length := by
  induction cs generalizing known with
  | nil => simp [countCollisions]
  | cons c rest ih =>
    simp only [countCollisions, List.length_cons]
    by_cases h : (known.find? (sameFrontend (build_rule c))).isSome
    · rw [if_pos h]
      have := ih known
      omega
    · rw [if_neg h]
      have := ih (known ++ [build_rule c])
      omega

/-- Counter bookkeeping of the import loop when every upstream create
succeeds, for an arbitrary starting accumulator. -/
theorem import_foldl_counts (createOk : Rule → Bool)
    (hok : ∀ r, createOk r = true) (cs : List BuildArgs) (acc : ImportAcc) :
    (cs.foldl (import_step createOk) acc).created + countCollisions acc.existing cs
        = acc.created + cs.length ∧
    (cs.foldl (import_step createOk) acc).skipped
        = acc.skipped + countCollisions acc.existing cs ∧
    (cs.foldl (import_step createOk) acc).failed = acc.failed ∧
    ∃ newRules,
      (cs.foldl (import_step createOk) acc).existing = acc.existing ++ newRules ∧
      (cs.foldl (import_step createOk) acc).createCalls = acc.createCalls ++ newRules := by
  induction cs generalizing acc with
  | nil =>
    exact ⟨by simp [countCollisions], by simp [countCollisions], rfl, [], by simp, by simp⟩
  | cons c rest ih =>
    simp only [List.foldl_cons, countCollisions, List.length_cons]
    by_cases h : (acc.existing.find? (sameFrontend (build_rule c))).isSome
    · have hconf : (_check_duplicate_rule (build_rule c) acc.existing).is_conflict = true := by
        rw [is_conflict_iff_find]; exact h
      have hstep : import_step createOk acc c = { acc with skipped := acc.skipped + 1 } := by
        simp [import_step, hconf]
      rw [hstep, if_pos h]
      obtain ⟨h1, h2, h3, nr, h4, h5⟩ := ih { acc with skipped := acc.skipped + 1 }
      dsimp only at h1 h2 h3 h4 h5
      exact ⟨by omega, by omega, h3, nr, h4, h5⟩
    · have hconf : (_check_duplicate_rule (build_rule c) acc.existing).is_conflict = false := by
        rw [is_conflict_iff_find]
        simp only [Bool.not_eq_true] at h
        exact h
      have hstep : import_step createOk acc c =
          { acc with created := acc.created + 1
                   , existing := acc.existing ++ [build_rule c]
                   , createCalls := acc.createCalls ++ [build_rule c] } := by
        simp [import_step, hconf, hok]
      rw [hstep, if_neg h]
      obtain ⟨h1, h2, h3, nr, h4, h5⟩ :=
        ih { acc with created := acc.created + 1
                    , existing := acc.existing ++ [build_rule c]
                    , createCalls := acc.createCalls ++ [build_rule c] }
      dsimp only at h1 h2 h3 h4 h5
      refine ⟨by omega, by omega, h3, build_rule c :: nr, ?_, ?_⟩
      · rw [h4]; simp
      · rw [h5]; simp

/-! Claim theorems. -/

/-- Claim C1: a successful password change — the credential record is
present and well-formed, the supplied current password verifies against
the stored hash, and the new password has length at least 8 — returns
true, clears the entire web-session map (so every outstanding session,
remember-me ones included, is invalidated) and persists the now-empty
map. -/
theorem update_password_invalidates_all_sessions
    (verifyP : String → String → Bool) (hashP : String → String) (now : Int)
    (st : WebAuthState) (current_password new_password : String)
    (a : AuthData) (u h : String)
    (ha : st.auth = some a) (hu : a.username = some u) (hh : a.password_hash = some h)
    (hu0 : u ≠ "") (hh0 : h ≠ "")
    (hv : verifyP current_password h = true)
    (hlen : 8 ≤ new_password.length) :
    (update_password verifyP hashP now st current_password new_password).1 = true ∧
    (update_password verifyP hashP now st current_password new_password).2.sessions = [] ∧
    (update_password verifyP hashP now st current_password new_password).2.persisted = [] ∧
    ∀ sid, mfind (update_password verifyP hashP now st current_password new_password).2.sessions sid = none := by
  have hstep : update_password verifyP hashP now st current_password new_password =
      (true, { auth := some (save_web_auth now u (hashP new_password))
             , sessions := [], persisted := [] }) := by
    simp [update_password, ha, hu, hh, hu0, hh0, hv, Nat.not_lt.mpr hlen]
  rw [hstep]
  exact ⟨rfl, rfl, rfl, fun _ => rfl⟩

/-- Witness for C1 at a concrete state holding a remember-me session. -/
theorem update_password_invalidates_all_sessions_witness :
    (update_password (fun p h' => p == h') (fun p => p) 5
      { auth := some { username := some "admin", password_hash := some "oldpass"
                     , created_at := 0, updated_at := 0 }
      , sessions := [("sid1", { username := "admin", created_at := 0
                              , expires_at := 2592000, remember_me := true })]
      , persisted := [("sid1", { username := "admin", created_at := 0
                               , expires_at := 2592000, remember_me := true })] }
      "oldpass" "newpassword").1 = true ∧
    (update_password (fun p h' => p == h') (fun p => p) 5
      { auth := some { username := some "admin", password_hash := some "oldpass"
                     , created_at := 0, updated_at := 0 }
      , sessions := [("sid1", { username := "admin", created_at := 0
                              , expires_at := 2592000, remember_me := true })]
      , persisted := [("sid1", { username := "admin", created_at := 0
                               , expires_at := 2592000, remember_me := true })] }
      "oldpass" "newpassword").2.sessions = [] := by
  have hmain := update_password_invalidates_all_sessions
    (fun p h' => p == h') (fun p => p) 5
    { auth := some { username := some "admin", password_hash := some "oldpass"
                   , created_at := 0, updated_at := 0 }
    , sessions := [("sid1", { username := "admin", created_at := 0
                            , expires_at := 2592000, remember_me := true })]
    , persisted := [("sid1", { username := "admin", created_at := 0
                             , expires_at := 2592000, remember_me := true })] }
    "oldpass" "newpassword"
    { username := some "admin", password_hash := some "oldpass"
    , created_at := 0, updated_at := 0 }
    "admin" "oldpass" rfl rfl rfl (by decide) (by decide) (by decide) (by decide)
  exact ⟨hmain.1, hmain.2.1⟩

/-- Claim C10: a failing password change returns false in each failure
case named by the claim (no credential record, current password fails
verification, new password shorter than 8), and any false return leaves
the whole state — credential record, session map and persisted copy —
unchanged. -/
theorem update_password_failure_preserves_state
    (verifyP : String → String → Bool) (hashP : String → String) (now : Int)
    (st : WebAuthState) (current_password new_password : String) :
    ((update_password verifyP hashP now st current_password new_password).1 = false →
      (update_password verifyP hashP now st current_password new_password).2 = st) ∧
    (st.auth = none →
      (update_password verifyP hashP now st current_password new_password).1 = false) ∧
    (∀ a h, st.auth = some a → a.password_hash = some h →
      verifyP current_password h = false →
      (update_password verifyP hashP now st current_password new_password).1 = false) ∧
    (new_password.length < 8 →
      (update_password verifyP hashP now st current_password new_password).1 = false) := by
  rcases hst : st.auth with _ | a
  · simp [update_password, hst]
  · rcases hu : a.username with _ | u
    · simp [update_password, hst, hu]
    · rcases hh : a.password_hash with _ | h
      · simp [update_password, hst, hu, hh]
      · simp only [update_password, hst, hu, hh]
        split_ifs with h1 h2 h3
        · simp [hst]
        · simp [hst, hh]
        · simp [hst]
        · have hv2 : verifyP current_password h = true := by
            simpa using h2
          refine ⟨by simp, by simp, ?_, fun hlen => absurd hlen h3⟩
          intro a' h' ha' hh' hv'
          cases ha'
          rw [hh] at hh'
          cases hh'
          rw [hv2] at hv'
          cases hv'

/-- Witness for C10: a state with no credential record, and a state where
the current password fails verification. -/
theorem update_password_failure_preserves_state_witness :
    (update_password (fun p h' => p == h') (fun p => p) 5
      { auth := none, sessions := [], persisted := [] } "x" "y").1 = false ∧
    (update_password (fun p h' => p == h') (fun p => p) 5
      { auth := none, sessions := [], persisted := [] } "x" "y").2 =
        { auth := none, sessions := [], persisted := [] } ∧
    (update_password (fun p h' => p == h') (fun p => p) 5
      { auth := some { username := some "admin", password_hash := some "pw"
                     , created_at := 0, updated_at := 0 }
      , sessions := [], persisted := [] } "wrong" "longenough").1 = false := by
  have h1 := update_password_failure_preserves_state
    (fun p h' => p == h') (fun p => p) 5
    { auth := none, sessions := [], persisted := [] } "x" "y"
  have h2 := update_password_failure_preserves_state
    (fun p h' => p == h') (fun p => p) 5
    { auth := some { username := some "admin", password_hash := some "pw"
                   , created_at := 0, updated_at := 0 }
    , sessions := [], persisted := [] } "wrong" "longenough"
  have hfalse1 := h1.2.1 rfl
  have hfalse2 := h2.2.2.1
    { username := some "admin", password_hash := some "pw"
    , created_at := 0, updated_at := 0 } "pw" rfl rfl (by decide)
  exact ⟨hfalse1, h1.1 hfalse1, hfalse2⟩

/-- Claim C2: creating a session and validating it immediately yields
true; validating a session whose expiry lies strictly in the past yields
false, removes it from the map, persists the removal, and leaves no entry
for that id behind. -/
theorem session_create_validate_expire
    (now : Int) (st : WebAuthState) (session_id username : String)
    (remember_me : Bool) (s : WebSession)
    (hid : session_id ≠ "") :
    (validate_session now (create_session now st session_id username remember_me).2 session_id).1 = true ∧
    (mfind st.sessions session_id = some s → s.expires_at < now →
      (validate_session now st session_id).1 = false ∧
      mfind (validate_session now st session_id).2.sessions session_id = none ∧
      (validate_session now st session_id).2.persisted =
        (validate_session now st session_id).2.sessions) := by
  constructor
  · have hm : mfind (create_session now st session_id username remember_me).2.sessions session_id
        = some { username := username, created_at := now
               , expires_at := if remember_me then now + 30 * 24 * 60 * 60 else now + 3600
               , remember_me := remember_me } := by
      simp [create_session, mfind_minsert_self]
    simp only [validate_session, hid, if_false, hm]
    cases remember_me
    · simp only [Bool.false_eq_true, if_false]
      have hn : ¬ (now > now + 3600) := by omega
      rw [if_neg hn]
    · simp only [if_true]
      have hn : ¬ (now > now + 30 * 24 * 60 * 60) := by omega
      rw [if_neg hn]
  · intro hms hexp
    have hgt : now > s.expires_at := hexp
    simp only [validate_session, hid, if_false, hms, hgt, if_true]
    exact ⟨trivial, mfind_merase_self _ _, trivial⟩

/-- Witness for C2: a fresh session validates; an expired one is evicted. -/
theorem session_create_validate_expire_witness :
    (validate_session 100
      (create_session 100
        { auth := none
        , sessions := [("old", { username := "u", created_at := 0
                               , expires_at := 50, remember_me := false })]
        , persisted := [("old", { username := "u", created_at := 0
                                , expires_at := 50, remember_me := false })] }
        "new" "u" true).2 "new").1 = true ∧
    (validate_session 100
      { auth := none
      , sessions := [("old", { username := "u", created_at := 0
                             , expires_at := 50, remember_me := false })]
      , persisted := [("old", { username := "u", created_at := 0
                              , expires_at := 50, remember_me := false })] }
      "old").1 = false ∧
    mfind (validate_session 100
      { auth := none
      , sessions := [("old", { username := "u", created_at := 0
                             , expires_at := 50, remember_me := false })]
      , persisted := [("old", { username := "u", created_at := 0
                              , expires_at := 50, remember_me := false })] }
      "old").2.sessions "old" = none := by
  have h1 := session_create_validate_expire 100
    { auth := none
    , sessions := [("old", { username := "u", created_at := 0
                           , expires_at := 50, remember_me := false })]
    , persisted := [("old", { username := "u", created_at := 0
                            , expires_at := 50, remember_me := false })] }
    "new" "u" true
    { username := "u", created_at := 0, expires_at := 50, remember_me := false }
    (by decide)
  have h2 := session_create_validate_expire 100
    { auth := none
    , sessions := [("old", { username := "u", created_at := 0
                           , expires_at := 50, remember_me := false })]
    , persisted := [("old", { username := "u", created_at := 0
                            , expires_at := 50, remember_me := false })] }
    "old" "u" false
    { username := "u", created_at := 0, expires_at := 50, remember_me := false }
    (by decide)
  have h2c := h2.2 (by decide) (by decide)
  exact ⟨h1.1, h2c.1, h2c.2.1⟩

/-- Claim C6: a corrupted (undecryptable or unparsable), missing, or
empty stored session file loads as the fresh state — an empty web-session
map, or no NAS session — instead of raising. -/
theorem corrupt_store_loads_empty (now : Int) :
    load_web_sessions now FileContent.corrupt = [] ∧
    load_web_sessions now FileContent.missing = [] ∧
    load_web_sessions now FileContent.empty = [] ∧
    load_session now FileContent.corrupt = none ∧
    load_session now FileContent.missing = none :=
  ⟨rfl, rfl, rfl, rfl, rfl⟩

/-- Claim C9 (code bug): create_session hardcodes its expiry offsets —
3600 seconds without remember-me and 30 days (2592000 seconds) with it —
and never consults the configurable app_session_expiry_secs /
app_remember_me_expiry_secs settings declared in config.py; a configured
short TTL of 10 seconds has no effect on the session produced. -/
theorem create_session_hardcoded_ttl :
    (mfind (create_session 0 { auth := none, sessions := [], persisted := [] }
        "sid1" "user" false).2.sessions "sid1").map WebSession.expires_at
      = some 3600 ∧
    (mfind (create_session 0 { auth := none, sessions := [], persisted := [] }
        "sid2" "user" true).2.sessions "sid2").map WebSession.expires_at
      = some 2592000 ∧
    ({ app_session_expiry_secs := 10, app_remember_me_expiry_secs := 2592000
     , app_rate_limit_enabled := true, app_rate_limit_max_attempts := 5
     , app_rate_limit_window := 300 } : Settings).app_session_expiry_secs ≠ 3600 := by
  refine ⟨by decide, by decide, by decide⟩

/-- Claim C3: with rate limiting enabled, check_rate_limit first prunes
recorded failures that are not strictly inside the sliding window and
stores the pruned list back for the identifier, and returns false exactly
when the remaining count has reached the configured maximum; clearing an
identifier (successful login) removes its failures, after which — with a
positive configured maximum — the next check passes, as it does once
every recorded failure has aged past the window. -/
theorem check_rate_limit_spec (settings : Settings) (now : Int) (fa : FailMap)
    (identifier : String)
    (hen : settings.app_rate_limit_enabled = true) :
    ((check_rate_limit settings now fa identifier).1 = false ↔
      settings.app_rate_limit_max_attempts ≤
        ((ffind fa identifier).filter
          (fun t => decide (t > now - settings.app_rate_limit_window))).length) ∧
    (check_rate_limit settings now fa identifier).2 =
      minsert fa identifier
        ((ffind fa identifier).filter
          (fun t => decide (t > now - settings.app_rate_limit_window))) ∧
    mfind (clear_failed_attempts fa identifier) identifier = none ∧
    (0 < settings.app_rate_limit_max_attempts →
      (check_rate_limit settings now (clear_failed_attempts fa identifier) identifier).1 = true) ∧
    ((∀ t ∈ ffind fa identifier, t ≤ now - settings.app_rate_limit_window) →
      0 < settings.app_rate_limit_max_attempts →
      (check_rate_limit settings now fa identifier).1 = true) := by
  refine ⟨?_, ?_, mfind_merase_self _ _, ?_, ?_⟩
  · by_cases hc : settings.app_rate_limit_max_attempts ≤
        ((ffind fa identifier).filter
          (fun t => decide (t > now - settings.app_rate_limit_window))).length
    · simp only [check_rate_limit, hen, Bool.not_true, Bool.false_eq_true, if_false]
      rw [if_pos hc]
      simpa using hc
    · simp only [check_rate_limit, hen, Bool.not_true, Bool.false_eq_true, if_false]
      rw [if_neg hc]
      simpa using hc
  · simp only [check_rate_limit, hen, Bool.not_true, Bool.false_eq_true, if_false]
    split <;> rfl
  · intro hmax
    have hff : ffind (clear_failed_attempts fa identifier) identifier = [] := by
      simp [ffind, clear_failed_attempts, mfind_merase_self]
    have hc : ¬ (settings.app_rate_limit_max_attempts ≤ ([] : List Int).length) := by
      simp only [List.length_nil, Nat.le_zero]
      omega
    simp only [check_rate_limit, hen, Bool.not_true, Bool.false_eq_true, if_false, hff,
      List.filter_nil]
    rw [if_neg hc]
  · intro hall hmax
    have hfil : (ffind fa identifier).filter
        (fun t => decide (t > now - settings.app_rate_limit_window)) = [] := by
      rw [List.filter_eq_nil_iff]
      intro t ht
      simp only [decide_eq_true_eq, not_lt]
      exact hall t ht
    have hc : ¬ (settings.app_rate_limit_max_attempts ≤ ([] : List Int).length) := by
      simp only [List.length_nil, Nat.le_zero]
      omega
    simp only [check_rate_limit, hen, Bool.not_true, Bool.false_eq_true, if_false, hfil]
    rw [if_neg hc]

/-- Witness for C3: with max 2 and two in-window failures the next check
is rejected; after clearing it passes. -/
theorem check_rate_limit_spec_witness :
    (check_rate_limit
      { app_session_expiry_secs := 3600, app_remember_me_expiry_secs := 2592000
      , app_rate_limit_enabled := true, app_rate_limit_max_attempts := 2
      , app_rate_limit_window := 300 } 1000
      [("ip:admin", [950, 960])] "ip:admin").1 = false ∧
    (check_rate_limit
      { app_session_expiry_secs := 3600, app_remember_me_expiry_secs := 2592000
      , app_rate_limit_enabled := true, app_rate_limit_max_attempts := 2
      , app_rate_limit_window := 300 } 1000
      (clear_failed_attempts [("ip:admin", [950, 960])] "ip:admin") "ip:admin").1 = true := by
  have h := check_rate_limit_spec
    { app_session_expiry_secs := 3600, app_remember_me_expiry_secs := 2592000
    , app_rate_limit_enabled := true, app_rate_limit_max_attempts := 2
    , app_rate_limit_window := 300 } 1000
    [("ip:admin", [950, 960])] "ip:admin" rfl
  exact ⟨h.1.mpr (by decide), h.2.2.2.1 (by decide)⟩

/-- Claim C8: every build_rule output, run through the comparison
normalization and compared against itself, is judged an exact duplicate
of itself — the exact-match relation is reflexive on build_rule
outputs. -/
theorem build_rule_self_exact_duplicate (a : BuildArgs) :
    _rules_match_exactly (build_rule a) (build_rule a) = true := by
  simp [_rules_match_exactly]

/-- Claim C4: an import candidate whose built rule shares its frontend
(fqdn, port) with a known rule — the first such rule in scan order — is
classified exact_duplicate when all normalized fields match and conflict
otherwise, and in both cases the batch step counts it as skipped and
issues no upstream create call. -/
theorem import_collision_skips (createOk : Rule → Bool) (acc : ImportAcc)
    (cand : BuildArgs) (e : Rule)
    (hfind : acc.existing.find? (sameFrontend (build_rule cand)) = some e) :
    (_rules_match_exactly (build_rule cand) e = true →
      _check_duplicate_rule (build_rule cand) acc.existing =
        { is_conflict := true, is_exact_duplicate := true
        , reason := some "exact_duplicate" }) ∧
    (_rules_match_exactly (build_rule cand) e = false →
      _check_duplicate_rule (build_rule cand) acc.existing =
        { is_conflict := true, is_exact_duplicate := false
        , reason := some "conflict" }) ∧
    (import_step createOk acc cand).skipped = acc.skipped + 1 ∧
    (import_step createOk acc cand).createCalls = acc.createCalls ∧
    (import_step createOk acc cand).created = acc.created ∧
    (import_step createOk acc cand).failed = acc.failed := by
  have hconf : (_check_duplicate_rule (build_rule cand) acc.existing).is_conflict = true := by
    rw [is_conflict_iff_find, hfind]
    rfl
  have hstep : import_step createOk acc cand = { acc with skipped := acc.skipped + 1 } := by
    simp [import_step, hconf]
  refine ⟨?_, ?_, by rw [hstep], by rw [hstep], by rw [hstep], by rw [hstep]⟩
  · intro hm
    rw [checkDup_spec, hfind]
    simp [hm]
  · intro hm
    rw [checkDup_spec, hfind]
    simp [hm]

/-- Sample candidate for the import witnesses. -/
def candW : BuildArgs :=
  { description := "web", backend_fqdn := "10.0.0.2", backend_port := 5001
  , frontend_fqdn := "a.example.com", frontend_port := 443
  , backend_protocol := 0, frontend_protocol := 1
  , frontend_hsts := some false, customize_headers := some []
  , proxy_connect_timeout := some 60, proxy_read_timeout := some 60
  , proxy_send_timeout := some 60, proxy_http_version := some 1
  , proxy_intercept_errors := some false, acl := none }

/-- An existing rule with the same frontend as candW but a different
backend port. -/
def ruleW : Rule := build_rule { candW with backend_port := 5000 }

/-- A second candidate with a fresh frontend. -/
def candX : BuildArgs := { candW with frontend_fqdn := "b.example.com" }

/-- Witness for C4: candW collides with ruleW (backend port differs, so
conflict), is skipped, and no create call is issued. -/
theorem import_collision_skips_witness :
    _check_duplicate_rule (build_rule candW) [ruleW] =
      { is_conflict := true, is_exact_duplicate := false, reason := some "conflict" } ∧
    (import_step (fun _ => true)
      { existing := [ruleW], created := 0, skipped := 0, failed := 0, createCalls := [] }
      candW).skipped = 1 ∧
    (import_step (fun _ => true)
      { existing := [ruleW], created := 0, skipped := 0, failed := 0, createCalls := [] }
      candW).createCalls = [] ∧
    _check_duplicate_rule (build_rule candW) [build_rule candW] =
      { is_conflict := true, is_exact_duplicate := true, reason := some "exact_duplicate" } := by
  have h1 := import_collision_skips (fun _ => true)
    { existing := [ruleW], created := 0, skipped := 0, failed := 0, createCalls := [] }
    candW ruleW (by decide)
  have h2 := import_collision_skips (fun _ => true)
    { existing := [build_rule candW], created := 0, skipped := 0, failed := 0
    , createCalls := [] }
    candW (build_rule candW) (by decide)
  exact ⟨h1.2.1 (by decide), h1.2.2.1, h1.2.2.2.1, h2.1 (by decide)⟩

/-- Claim C5: when every non-colliding create succeeds upstream, a batch
of N candidates of which M collide with the initially known rules or
with rules created earlier in the same batch yields created = N − M,
skipped = M, failed = 0; the final snapshot is the initial rule set
extended by exactly the rules created, so later candidates saw every
earlier creation. -/
theorem import_batch_counts (createOk : Rule → Bool) (existing : List Rule)
    (cands : List BuildArgs) (hok : ∀ r, createOk r = true) :
    (import_rules createOk existing cands).created
        = cands.length - countCollisions existing cands ∧
    (import_rules createOk existing cands).skipped = countCollisions existing cands ∧
    (import_rules createOk existing cands).failed = 0 ∧
    (import_rules createOk existing cands).existing
        = existing ++ (import_rules createOk existing cands).createCalls := by
  obtain ⟨h1, h2, h3, nr, h4, h5⟩ := import_foldl_counts createOk hok cands
    { existing := existing, created := 0, skipped := 0, failed := 0, createCalls := [] }
  dsimp only at h1 h2 h3 h4 h5
  have hle := countCollisions_le existing cands
  refine ⟨?_, ?_, ?_, ?_⟩
  · unfold import_rules
    omega
  · unfold import_rules
    omega
  · unfold import_rules
    omega
  · unfold import_rules
    rw [h4, h5]
    simp

/-- Witness for C5: two candidates against one existing rule; the first
collides and is skipped, the second is created. -/
theorem import_batch_counts_witness :
    (import_rules (fun _ => true) [ruleW] [candW, candX]).created = 1 ∧
    (import_rules (fun _ => true) [ruleW] [candW, candX]).skipped = 1 ∧
    (import_rules (fun _ => true) [ruleW] [candW, candX]).failed = 0 := by
  have h := import_batch_counts (fun _ => true) [ruleW] [candW, candX] (fun _ => rfl)
  refine ⟨?_, ?_, h.2.2.1⟩
  · rw [h.1]
    decide
  · rw [h.2.1]
    decide

/-! Claim C7 concerns load_session.  The literal claim fails on the code:
Python treats a stored expiry of 0 as falsy, so such a record is returned
as usable at any time, where the claim demands now ≤ expiry. -/

/-- Claim C7 as stated: a loaded NAS session record has a non-null sid
only when the stored sid is non-null and the stored expiry is null or not
yet passed. -/
def loadSessionUsableClaim : Prop :=
  ∀ (now : Int) (d out : StoredNasSession),
    load_session now (FileContent.ok d) = some out →
    out.sid ≠ none →
    d.sid ≠ none ∧ (d.expiry_time = none ∨ now ≤ d.expiry_time.getD 0)

/-- Counterexample to C7 as stated: the record with sid "s" and stored
expiry 0 loads with its sid at now = 5 even though 5 ≤ 0 fails and the
expiry is not null. -/
theorem load_session_zero_expiry_cex : ¬ loadSessionUsableClaim := by
  intro hclaim
  have h := hclaim 5
    { sid := some "s", did := none, synotoken := none, expiry_time := some 0 }
    { sid := some "s", did := none, synotoken := none, expiry_time := some 0 }
    (by decide) (by decide)
  rcases h.2 with h2 | h2
  · simp at h2
  · simp at h2

theorem numTruthy_eq_false (e : Option Int) :
    numTruthy e = false ↔ (e = none ∨ e = some 0) := by
  cases e with
  | none => simp [numTruthy]
  | some v => simp [numTruthy]

/-- A true validity test in load_session yields the amended usability
condition on the stored record. -/
theorem valid_implies_usable (now : Int) (sid : Option String) (exp : Option Int)
    (hv : (strTruthy sid && (!numTruthy exp || decide (now ≤ exp.getD 0))) = true) :
    sid ≠ none ∧ (exp = none ∨ exp = some 0 ∨ now ≤ exp.getD 0) := by
  rw [Bool.and_eq_true] at hv
  obtain ⟨hs, hrest⟩ := hv
  constructor
  · cases sid with
    | none => simp [strTruthy] at hs
    | some s => simp
  · rw [Bool.or_eq_true] at hrest
    rcases hrest with hfal | hle
    · rcases (numTruthy_eq_false exp).mp (by simpa using hfal) with h | h
      · exact Or.inl h
      · exact Or.inr (Or.inl h)
    · exact Or.inr (Or.inr (by simpa using hle))

/-- Claim C7 (amended): load_session returns a record with a non-null sid
only when the stored sid is non-null and the stored expiry is null, zero
(falsy in the source), or not yet passed; a record whose sid is null, or
whose non-null non-zero expiry has passed, but which holds a non-empty
device id, loads as that device id with sid, synoToken and expiry set to
null; and with neither a usable sid nor a truthy device id, nothing is
loaded. -/
theorem load_session_clauses (now : Int) (d : StoredNasSession) :
    (∀ out, load_session now (FileContent.ok d) = some out → out.sid ≠ none →
      d.sid ≠ none ∧
        (d.expiry_time = none ∨ d.expiry_time = some 0 ∨ now ≤ d.expiry_time.getD 0)) ∧
    (∀ dev, d.did = some dev → dev ≠ "" →
      (d.sid = none ∨
        (numTruthy d.expiry_time = true ∧ d.expiry_time.getD 0 < now)) →
      load_session now (FileContent.ok d) =
        some { sid := none, did := some dev, synotoken := none, expiry_time := none }) ∧
    (¬ (d.sid ≠ none ∧
        (d.expiry_time = none ∨ d.expiry_time = some 0 ∨ now ≤ d.expiry_time.getD 0)) →
      strTruthy d.did = false →
      load_session now (FileContent.ok d) = none) := by
  obtain ⟨sid, did, tok, exp⟩ := d
  refine ⟨?_, ?_, ?_⟩
  · intro out hload hsid
    by_cases hv : (strTruthy sid && (!numTruthy exp || decide (now ≤ exp.getD 0))) = true
    · exact valid_implies_usable now sid exp hv
    · exfalso
      apply hsid
      simp only [load_session, hv, if_false] at hload
      by_cases hd : strTruthy did = true
      · rw [if_pos hd] at hload
        cases hload
        rfl
      · rw [if_neg hd] at hload
        cases hload
  · intro dev hdev hne hbad
    have hvfalse : (strTruthy sid && (!numTruthy exp || decide (now ≤ exp.getD 0))) = false := by
      rcases hbad with hnone | ⟨htru, hlt⟩
      · subst hnone
        simp [strTruthy]
      · have hdec : decide (now ≤ exp.getD 0) = false := by
          simp only [decide_eq_false_iff_not, not_le]
          exact hlt
        simp [htru, hdec]
    subst hdev
    simp only [load_session, hvfalse, Bool.false_eq_true, if_false]
    have hd : strTruthy (some dev) = true := by
      simpa [strTruthy] using hne
    rw [if_pos hd]
  · intro hnotA hdidf
    have hvfalse : (strTruthy sid && (!numTruthy exp || decide (now ≤ exp.getD 0))) = false := by
      by_contra hvv
      rw [Bool.not_eq_false] at hvv
      exact hnotA (valid_implies_usable now sid exp hvv)
    simp only [load_session, hvfalse, Bool.false_eq_true, if_false]
    rw [if_neg]
    simp [hdidf]

/-- Witness for the amended C7: an expired-sid record with a device id
loads as the bare device id. -/
theorem load_session_clauses_witness :
    load_session 5 (FileContent.ok
      { sid := none, did := some "dev", synotoken := none, expiry_time := some 3 }) =
      some { sid := none, did := some "dev", synotoken := none, expiry_time := none } := by
  have h := load_session_clauses 5
    { sid := none, did := some "dev", synotoken := none, expiry_time := some 3 }
  exact h.2.1 "dev" rfl (by decide) (Or.inl rfl)

end SynoRP
